import Mathlib

/-!
Verification development for `rlpyt/agents/qpg/sac_agent_v2.py` (SacAgent).

Shallow embedding conventions:
* torch tensors are `List ℚ` (a flat vector or a batch of per-row scalars);
  batched per-candidate tensors are `List (List ℚ)`.
* Neural-network forward passes are opaque: an `Interp` record supplies one
  function per model class, applied row-wise (a network forward over a batch
  is the map of its per-row function, which is exact for these architectures).
* Numeric primitives that are irrational on ℚ (`exp`, `tanh`) and the RNG
  noise source are fields of `Interp`, so every statement quantifies over them.
* Randomness (`torch.randint`, Gaussian noise) is passed in as explicit seeds.
* Python exceptions are `Except String` / an `Option String` error component.
-/

namespace SacV2

/-- torch tensor, flattened to a list of exact rationals. -/
abbrev Tensor := List ℚ

/-- The named observation bundle: a `position` field and/or a `pixels` field
(image as height × width × channel, uint8 entries as ℕ), mirroring the
namedtuple observations dispatched on in `SacAgent.step`. -/
structure Observation where
  position : Option (List ℚ)
  pixels : Option (List (List (List ℕ)))
deriving DecidableEq

/-- `DistInfoStd(mean=..., log_std=...)` from rlpyt. -/
structure DistInfoStd where
  mean : Tensor
  log_std : Tensor
deriving DecidableEq

/-- `AgentInfo = namedarraytuple("AgentInfo", ["dist_info"])`. -/
structure AgentInfo where
  dist_info : DistInfoStd
deriving DecidableEq

/-- The `max_q_eval_mode` configuration strings of `SacAgent`. -/
inductive MaxQEvalMode
  | none
  | state_rope
  | state_cloth_corner
  | state_cloth_point
  | pixels_cloth_point
deriving DecidableEq

/-- Opaque interpretation of the neural networks and numeric primitives.
`piForward`/`qForward` give the per-candidate-row semantics of the policy
and critic networks on the augmented observation `(location, base obs)` of
the structured `step` branch; `piForwardPlain`/`qForwardPlain` give the
batch semantics used by `pi`, `q`, `target_q`, `target_v` and the `none`
branch of `step`. `exp`/`tanh` interpret `torch.exp`/`torch.tanh`, `noise`
is the per-(seed, index) Gaussian noise source, and `sampleLoglik`
interprets `Gaussian.sample_loglikelihood` (std override, squash, mean,
log_std, seed ↦ (action, log_pi)). -/
structure Interp where
  exp : ℚ → ℚ
  tanh : ℚ → ℚ
  noise : ℕ → ℕ → ℚ
  piForward : List ℚ → List ℚ → Observation → Tensor → ℚ → List ℚ × List ℚ
  qForward : List ℚ → List ℚ → Observation → Tensor → ℚ → List ℚ → ℚ
  piForwardPlain : List ℚ → Observation → Tensor → ℚ → Tensor × Tensor
  qForwardPlain : List ℚ → Observation → Tensor → ℚ → Tensor → Tensor
  sampleLoglik : Option ℚ → ℚ → Tensor → Tensor → ℕ → Tensor × Tensor

/-- The state of a `SacAgent`: the five owned parameter vectors, the raw
`log_alpha` scalar, and the configuration/override state that `step`, `pi`
and the Gaussian distribution read (`max_q_eval_mode`, the `set_std`
override, `action_squash`). -/
structure SacAgent where
  model_params : List ℚ
  q1_params : List ℚ
  q2_params : List ℚ
  target_q1_params : List ℚ
  target_q2_params : List ℚ
  log_alpha : ℚ
  max_q_eval_mode : MaxQEvalMode
  std_override : Option ℚ
  action_squash : ℚ
deriving DecidableEq

/-- The checkpoint bundle of `SacAgent.state_dict`; `Option` fields model
dict keys that may be absent. -/
structure StateDict where
  model : Option (List ℚ)
  q1_model : Option (List ℚ)
  q2_model : Option (List ℚ)
  target_q1_model : Option (List ℚ)
  target_q2_model : Option (List ℚ)
  alpha : Option ℚ
deriving DecidableEq

/-- `SacAgent.state_dict` (source lines 291–299): all five model parameter
sets plus the raw `log_alpha`. -/
def SacAgent.state_dict (a : SacAgent) : StateDict where
  model := some a.model_params
  q1_model := some a.q1_params
  q2_model := some a.q2_params
  target_q1_model := some a.target_q1_params
  target_q2_model := some a.target_q2_params
  alpha := some a.log_alpha

/-- `SacAgent.load_state_dict` (source lines 301–307): six sequential dict
lookups and assignments. A missing key raises `KeyError` at its lookup,
leaving the assignments already executed in place — the returned pair is
(agent state when control leaves the method, raised error if any). -/
def SacAgent.load_state_dict (a : SacAgent) (sd : StateDict) :
    SacAgent × Option String :=
  match sd.model with
  | Option.none => (a, some "KeyError: model")
  | some m =>
    let a := { a with model_params := m }
    match sd.q1_model with
    | Option.none => (a, some "KeyError: q1_model")
    | some m1 =>
      let a := { a with q1_params := m1 }
      match sd.q2_model with
      | Option.none => (a, some "KeyError: q2_model")
      | some m2 =>
        let a := { a with q2_params := m2 }
        match sd.target_q1_model with
        | Option.none => (a, some "KeyError: target_q1_model")
        | some t1 =>
          let a := { a with target_q1_params := t1 }
          match sd.target_q2_model with
          | Option.none => (a, some "KeyError: target_q2_model")
          | some t2 =>
            let a := { a with target_q2_params := t2 }
            match sd.alpha with
            | Option.none => (a, some "KeyError: alpha")
            | some al => ({ a with log_alpha := al }, Option.none)

/-- Modelled from the spec: `update_state_dict` lives in
`rlpyt/models/utils.py`, which is not under `src/`; spec §4.3 gives its
contract `target_param ← tau * live_param + (1 - tau) * target_param`,
applied elementwise to every parameter tensor. -/
def update_state_dict (target_params live_params : List ℚ) (tau : ℚ) :
    List ℚ :=
  List.zipWith (fun t l => tau * l + (1 - tau) * t) target_params live_params

/-- `SacAgent.update_target` (source lines 247–249): blend both target
critics toward their live critics. -/
def SacAgent.update_target (a : SacAgent) (tau : ℚ) : SacAgent :=
  { a with
    target_q1_params := update_state_dict a.target_q1_params a.q1_params tau
    target_q2_params := update_state_dict a.target_q2_params a.q2_params tau }

/-- `SacAgent.initialize` from the source (lines 62–87), named `initialize_agent` here, with the constructor
randomness of the freshly built networks abstracted as explicit arguments:
the live critics get fresh parameters, the target critics load the live
critics' state dicts (hard copy), `log_alpha` starts at 0, the std override
is unset, and an `initial_model_state_dict`, when given, is loaded last via
`load_state_dict`. -/
def SacAgent.initialize_agent (fresh_pi fresh_q1 fresh_q2 : List ℚ)
    (initial_model_state_dict : Option StateDict) (mode : MaxQEvalMode)
    (action_squash : ℚ) : SacAgent × Option String :=
  let a : SacAgent :=
    { model_params := fresh_pi
      q1_params := fresh_q1
      q2_params := fresh_q2
      target_q1_params := fresh_q1
      target_q2_params := fresh_q2
      log_alpha := 0
      max_q_eval_mode := mode
      std_override := Option.none
      action_squash := action_squash }
  match initial_model_state_dict with
  | Option.none => (a, Option.none)
  | some sd => a.load_state_dict sd

/-- `SacAgent.eval_mode` (source lines 285–289): `distribution.set_std(0.)`,
forcing a deterministic action. -/
def SacAgent.eval_mode (a : SacAgent) : SacAgent :=
  { a with std_override := some 0 }

/-- `SacAgent.sample_mode` (source lines 274–283): std override is the
pretrain value before `min_itr_learn`, the network std afterwards. -/
def SacAgent.sample_mode (a : SacAgent) (itr min_itr_learn : ℕ)
    (pretrain_std : ℚ) : SacAgent :=
  { a with
    std_override := if itr ≥ min_itr_learn then Option.none
      else some pretrain_std }

/-- `MIN_LOG_STD`/`MAX_LOG_STD` clamping of a log-std entry (source lines
21–22 and spec §4.1). -/
def clampLogStd (l : ℚ) : ℚ := max (-20) (min 2 l)

/-- Modelled from the spec: `Gaussian.sample` lives in
`rlpyt/distributions/gaussian.py`, which is not under `src/`; spec §4.1:
std is the override when one is active, otherwise
`exp(clamp(log_std, MIN_LOG_STD, MAX_LOG_STD))`; the raw sample is
`mean + std * noise`, squashed through a scaled hyperbolic tangent. -/
def gaussianSample (I : Interp) (override : Option ℚ) (squash : ℚ)
    (mean log_std : Tensor) (rng : ℕ) : Tensor :=
  let stdOf : ℕ → ℚ :=
    match override with
    | some s => fun _ => s
    | Option.none => fun i => I.exp (clampLogStd (log_std.getD i 0))
  let raw := mean.mapIdx fun i m => m + stdOf i * I.noise rng i
  raw.map fun x => squash * I.tanh x

/-- `SacAgent.q` (source lines 113–118): evaluate both live critics on
identical inputs. -/
def SacAgent.q (I : Interp) (a : SacAgent) (observation : Observation)
    (prev_action : Tensor) (prev_reward : ℚ) (action : Tensor) :
    Tensor × Tensor :=
  (I.qForwardPlain a.q1_params observation prev_action prev_reward action,
   I.qForwardPlain a.q2_params observation prev_action prev_reward action)

/-- `SacAgent.target_q` (source lines 120–125): evaluate both target
critics on identical inputs. -/
def SacAgent.target_q (I : Interp) (a : SacAgent)
    (observation : Observation) (prev_action : Tensor) (prev_reward : ℚ)
    (action : Tensor) : Tensor × Tensor :=
  (I.qForwardPlain a.target_q1_params observation prev_action prev_reward
     action,
   I.qForwardPlain a.target_q2_params observation prev_action prev_reward
     action)

/-- `SacAgent.pi` (source lines 127–134): policy forward, then
`Gaussian.sample_loglikelihood` (opaque, depends on the std override and
squash configuration), returning action, log-likelihood and dist info. -/
def SacAgent.pi (I : Interp) (a : SacAgent) (observation : Observation)
    (prev_action : Tensor) (prev_reward : ℚ) (rng : ℕ) :
    Tensor × Tensor × DistInfoStd :=
  let md := I.piForwardPlain a.model_params observation prev_action
    prev_reward
  let al := I.sampleLoglik a.std_override a.action_squash md.1 md.2 rng
  (al.1, al.2, ⟨md.1, md.2⟩)

/-- `SacAgent.target_v` (source lines 136–146): sample the next action from
the current policy, evaluate both target critics at it, take the
elementwise minimum, and subtract `exp(log_alpha)` times the next action's
log-likelihood. -/
def SacAgent.target_v (I : Interp) (a : SacAgent)
    (observation : Observation) (prev_action : Tensor) (prev_reward : ℚ)
    (rng : ℕ) : Tensor :=
  let pr := a.pi I observation prev_action prev_reward rng
  let next_actions := pr.1
  let next_log_pis := pr.2.1
  let qq := a.target_q I observation prev_action prev_reward next_actions
  let min_next_q := List.zipWith min qq.1 qq.2
  List.zipWith (fun mq lp => mq - I.exp a.log_alpha * lp) min_next_q
    next_log_pis

/-- `np.tile(row, (1, k))`: one row of a 2-D tile, the row repeated `k`
times. -/
def tileRow (k : ℕ) (v : List ℚ) : List ℚ := (List.replicate k v).flatten

/-- Candidate generator of mode `state_rope` (source lines 180–183):
`np.arange(25)` as a column, tiled to width 50. -/
def ropeLocations : List (List ℚ) :=
  (List.range 25).map fun i => tileRow 50 [(i : ℚ)]

/-- Candidate generator of mode `state_cloth_corner` (source lines
184–188): the four one-hot rows, tiled to width 200. -/
def clothCornerLocations : List (List ℚ) :=
  [[1, 0, 0, 0], [0, 1, 0, 0], [0, 0, 1, 0], [0, 0, 0, 1]].map (tileRow 50)

/-- Candidate generator of mode `state_cloth_point` (source lines 189–191):
`np.mgrid[0:9, 0:9]` reshaped to 81 rows `[a, b]`, tiled to width 100, then
divided by 8. -/
def clothPointLocations : List (List ℚ) :=
  ((List.range 9).map fun ia =>
    (List.range 9).map fun ib =>
      (tileRow 50 [(ia : ℚ), (ib : ℚ)]).map (· / 8)).flatten

/-- Candidate generator of mode `pixels_cloth_point` (source lines
192–196): every pixel coordinate `(i, j)` whose value on any channel is
below 100, in row-major order, tiled to width 100, then divided by 63. -/
def pixelLocations (image : List (List (List ℕ))) : List (List ℚ) :=
  ((image.enum.map fun p =>
    p.2.enum.filterMap fun qp =>
      if qp.2.any (· < 100) then some (p.1, qp.1) else Option.none).flatten).map
    fun ij => (tileRow 50 [(ij.1 : ℚ), (ij.2 : ℚ)]).map (· / 63)

/-- The candidate-location list built by the structured branch of
`SacAgent.step` for each `max_q_eval_mode` (source lines 180–198). -/
def candidateLocations (mode : MaxQEvalMode) (obs : Observation) :
    List (List ℚ) :=
  match mode with
  | .none => []
  | .state_rope => ropeLocations
  | .state_cloth_corner => clothCornerLocations
  | .state_cloth_point => clothPointLocations
  | .pixels_cloth_point => pixelLocations (obs.pixels.getD [])

/-- The per-candidate policy means over the augmented observation batch
(source line 208, first output). -/
def augMeans (I : Interp) (params : List ℚ) (locs : List (List ℚ))
    (obs : Observation) (prev_action : Tensor) (prev_reward : ℚ) :
    List (List ℚ) :=
  locs.map fun l => (I.piForward params l obs prev_action prev_reward).1

/-- The per-candidate policy log-stds over the augmented observation batch
(source line 208, second output). -/
def augLogStds (I : Interp) (params : List ℚ) (locs : List (List ℚ))
    (obs : Observation) (prev_action : Tensor) (prev_reward : ℚ) :
    List (List ℚ) :=
  locs.map fun l => (I.piForward params l obs prev_action prev_reward).2

/-- One critic evaluated over the augmented batch at the policy means
(source lines 210–211). -/
def qVals (I : Interp) (qp : List ℚ) (locs : List (List ℚ))
    (obs : Observation) (prev_action : Tensor) (prev_reward : ℚ)
    (means : List (List ℚ)) : List ℚ :=
  List.zipWith (fun l m => I.qForward qp l obs prev_action prev_reward m)
    locs means

/-- `q = torch.min(q1, q2)` over the candidate batch (source line 212). -/
def qMin (I : Interp) (q1p q2p : List ℚ) (locs : List (List ℚ))
    (obs : Observation) (prev_action : Tensor) (prev_reward : ℚ)
    (means : List (List ℚ)) : List ℚ :=
  List.zipWith min (qVals I q1p locs obs prev_action prev_reward means)
    (qVals I q2p locs obs prev_action prev_reward means)

/-- `int(threshold * n_locations)` with `threshold = 0.2` (source lines
150, 215): Python truncation of `0.2 * n`, i.e. `⌊n / 5⌋`. -/
def topkCount (n : ℕ) : ℕ := n / 5

/-- Ordering used to model `torch.topk` (largest first): compare index-value
pairs by value, descending. -/
def qGE (p q : ℕ × ℚ) : Prop := q.2 ≤ p.2

instance : DecidableRel qGE := fun a b => inferInstanceAs (Decidable (b.2 ≤ a.2))

instance : IsTotal (ℕ × ℚ) qGE := ⟨fun a b => le_total b.2 a.2⟩

instance : IsTrans (ℕ × ℚ) qGE := ⟨fun _ _ _ h1 h2 => le_trans h2 h1⟩

/-- `torch.topk(q, k).indices`: the indices of the `k` largest entries of
`q`, largest first (source line 215). Tie-breaking is unspecified by torch;
this model sorts stably by value, descending. -/
def topk (q : List ℚ) (k : ℕ) : List ℕ :=
  ((q.enum.insertionSort qGE).take k).map Prod.fst

/-- `actual_idxs = indices[sampled_idx]` with
`sampled_idx = torch.randint(high=k, size=(1,))` (source lines 226–228):
the top-`k` index at a uniformly random position, the randomness supplied
as the seed `rng` reduced mod `k`. -/
def selectedIndex (q : List ℚ) (k : ℕ) (rng : ℕ) : ℕ :=
  (topk q k).getD (rng % k) 0

/-- The structured (max-Q) branch of `SacAgent.step` (source lines
161–245), for a single (unbatched) observation: build the mode's candidate
locations, run policy and both critics over the augmented batch, take the
pessimistic minimum, keep the top fifth, pick one of those at random, and
assemble `[(location[:2] - 0.5) / 0.5, tanh(mean[idx])]` with the dist info
at the same index. `torch.randint(high=0, ...)` raises, which is the
`Except.error` case. -/
def SacAgent.stepStructured (I : Interp) (a : SacAgent)
    (observation : Observation) (prev_action : Tensor) (prev_reward : ℚ)
    (rng : ℕ) : Except String (Tensor × AgentInfo) :=
  let locations := candidateLocations a.max_q_eval_mode observation
  let n_locations := locations.length
  let mean := augMeans I a.model_params locations observation prev_action
    prev_reward
  let log_std := augLogStds I a.model_params locations observation
    prev_action prev_reward
  let q := qMin I a.q1_params a.q2_params locations observation prev_action
    prev_reward mean
  let k := topkCount n_locations
  if k = 0 then
    Except.error "randint: from must be less than to"
  else
    let idx := selectedIndex q k rng
    let location := (locations.getD idx []).take 2
    let location2 := location.map fun x => (x - 1/2) / (1/2)
    let delta := (mean.getD idx []).map I.tanh
    let action := location2 ++ delta
    Except.ok (action, ⟨⟨mean.getD idx [], log_std.getD idx []⟩⟩)

/-- The `none` branch of `SacAgent.step` (source lines 154–160): sample
from the squashed Gaussian at the policy output. -/
def SacAgent.stepNone (I : Interp) (a : SacAgent)
    (observation : Observation) (prev_action : Tensor) (prev_reward : ℚ)
    (rng : ℕ) : Tensor × AgentInfo :=
  let md := I.piForwardPlain a.model_params observation prev_action
    prev_reward
  let action := gaussianSample I a.std_override a.action_squash md.1 md.2
    rng
  (action, ⟨⟨md.1, md.2⟩⟩)

/-- `SacAgent.step` (source lines 148–245): dispatch on
`max_q_eval_mode`. -/
def SacAgent.step (I : Interp) (a : SacAgent) (observation : Observation)
    (prev_action : Tensor) (prev_reward : ℚ) (rng : ℕ) :
    Except String (Tensor × AgentInfo) :=
  match a.max_q_eval_mode with
  | .none =>
    Except.ok (a.stepNone I observation prev_action prev_reward rng)
  | _ => a.stepStructured I observation prev_action prev_reward rng

end SacV2

namespace SacV2

/-! ### Concrete instances used by witnesses and counterexamples -/

/-- A concrete interpretation of the opaque networks and primitives:
the policy always outputs mean `[0]`, log_std `[0]`; the critics score a
candidate by the first entry of its location row, so all candidate
Q-values are distinct and the top-k set is forced independently of
tie-breaking. -/
def cInterp : Interp where
  exp := fun _ => 1
  tanh := fun x => x
  noise := fun _ _ => 0
  piForward := fun _ _ _ _ _ => ([0], [0])
  qForward := fun _ l _ _ _ _ => l.headD 0
  piForwardPlain := fun _ _ _ _ => ([0], [0])
  qForwardPlain := fun _ _ _ _ _ => [0]
  sampleLoglik := fun _ _ mean _ _ => (mean, [0])

/-- A concrete observation with an empty position vector. -/
def cObs : Observation := ⟨some [], Option.none⟩

/-- A concrete agent in `state_rope` mode. -/
def cAgentRope : SacAgent where
  model_params := [1]
  q1_params := [2]
  q2_params := [3]
  target_q1_params := [4]
  target_q2_params := [5]
  log_alpha := 0
  max_q_eval_mode := .state_rope
  std_override := Option.none
  action_squash := 1

/-- The same agent in `state_cloth_corner` mode (4 candidates). -/
def cAgentCorner : SacAgent :=
  { cAgentRope with max_q_eval_mode := .state_cloth_corner }

/-- The same agent in `none` mode, placed in evaluation mode (std
override 0). -/
def cAgentNone : SacAgent :=
  SacAgent.eval_mode { cAgentRope with max_q_eval_mode := .none }

/-- An agent that differs from `cAgentRope` only in its parameters. -/
def cAgentB : SacAgent := { cAgentRope with model_params := [9], log_alpha := 7 }

/-- A bundle whose `q1_model` key is missing but whose `model` key holds
new parameters. -/
def cSdMissing : StateDict :=
  ⟨some [5], Option.none, Option.none, Option.none, Option.none, Option.none⟩

/-- A full bundle whose target-critic entries differ from its live-critic
entries (as any checkpoint taken mid-training has). -/
def cSdDiverged : StateDict :=
  ⟨some [1], some [0], some [0], some [1], some [1], some 0⟩

/-- Candidate locations of the concrete rope-mode run. -/
def cLocs : List (List ℚ) := candidateLocations cAgentRope.max_q_eval_mode cObs

/-- Per-candidate policy means of the concrete rope-mode run. -/
def cMeans : List (List ℚ) :=
  augMeans cInterp cAgentRope.model_params cLocs cObs [] 0

/-- Per-candidate policy log-stds of the concrete rope-mode run. -/
def cLogStds : List (List ℚ) :=
  augLogStds cInterp cAgentRope.model_params cLocs cObs [] 0

/-- Pessimistic per-candidate Q-values of the concrete rope-mode run. -/
def cQ : List ℚ :=
  qMin cInterp cAgentRope.q1_params cAgentRope.q2_params cLocs cObs [] 0 cMeans

/-- Candidate index selected in the concrete rope-mode run with seed 2. -/
def cIdx : ℕ := selectedIndex cQ (topkCount cLocs.length) 2

end SacV2

namespace SacV2

/-! ### Helper lemmas -/

theorem zipWith_getD (f : ℚ → ℚ → ℚ) (l1 l2 : List ℚ) (i : ℕ)
    (h1 : i < l1.length) (h2 : i < l2.length) :
    (List.zipWith f l1 l2).getD i 0 = f (l1.getD i 0) (l2.getD i 0) := by
  induction l1 generalizing l2 i with
  | nil => simp at h1
  | cons a t ih =>
    cases l2 with
    | nil => simp at h2
    | cons b t2 =>
      cases i with
      | zero => rfl
      | succ n =>
        simp only [List.zipWith_cons_cons, List.getD_cons_succ]
        exact ih t2 n (by simpa using h1) (by simpa using h2)

theorem update_state_dict_one (t l : List ℚ) (h : t.length = l.length) :
    update_state_dict t l 1 = l := by
  induction t generalizing l with
  | nil =>
    cases l with
    | nil => rfl
    | cons b tb => simp at h
  | cons a ta ih =>
    cases l with
    | nil => simp at h
    | cons b tb =>
      have htail := ih tb (by simpa using h)
      simp only [update_state_dict, List.zipWith_cons_cons] at htail ⊢
      rw [htail]
      norm_num

theorem update_state_dict_zero (t l : List ℚ) (h : t.length = l.length) :
    update_state_dict t l 0 = t := by
  induction t generalizing l with
  | nil => rfl
  | cons a ta ih =>
    cases l with
    | nil => simp at h
    | cons b tb =>
      have htail := ih tb (by simpa using h)
      simp only [update_state_dict, List.zipWith_cons_cons] at htail ⊢
      rw [htail]
      norm_num

theorem update_state_dict_length (t l : List ℚ) :
    (update_state_dict t l tau).length = min t.length l.length := by
  simp [update_state_dict]

/-! ### C1 -/

/-- C1: for every `tau ∈ [0,1]`, `update_target(tau)` sets each parameter
of both target critics to `tau * live + (1 - tau) * old_target`
elementwise; `tau = 1` makes the targets exactly the live critic
parameters, and `tau = 0` leaves them unchanged. -/
theorem update_target_blends (a : SacAgent) (tau : ℚ)
    (h0 : 0 ≤ tau) (h1 : tau ≤ 1)
    (hl1 : a.target_q1_params.length = a.q1_params.length)
    (hl2 : a.target_q2_params.length = a.q2_params.length) :
    (∀ i, i < a.target_q1_params.length →
      (a.update_target tau).target_q1_params.getD i 0 =
        tau * a.q1_params.getD i 0 +
          (1 - tau) * a.target_q1_params.getD i 0) ∧
    (∀ i, i < a.target_q2_params.length →
      (a.update_target tau).target_q2_params.getD i 0 =
        tau * a.q2_params.getD i 0 +
          (1 - tau) * a.target_q2_params.getD i 0) ∧
    (a.update_target 1).target_q1_params = a.q1_params ∧
    (a.update_target 1).target_q2_params = a.q2_params ∧
    (a.update_target 0).target_q1_params = a.target_q1_params ∧
    (a.update_target 0).target_q2_params = a.target_q2_params := by
  refine ⟨fun i hi => ?_, fun i hi => ?_, ?_, ?_, ?_, ?_⟩
  · exact zipWith_getD _ _ _ i hi (hl1 ▸ hi)
  · exact zipWith_getD _ _ _ i hi (hl2 ▸ hi)
  · exact update_state_dict_one _ _ hl1
  · exact update_state_dict_one _ _ hl2
  · exact update_state_dict_zero _ _ hl1
  · exact update_state_dict_zero _ _ hl2

/-- C1 witness: the blend evaluated on a concrete agent at `tau = 1/2`,
`tau = 1` and `tau = 0`. -/
theorem update_target_blends_witness :
    (cAgentRope.update_target (1/2)).target_q1_params.getD 0 0 =
      (1/2) * cAgentRope.q1_params.getD 0 0 +
        (1 - 1/2) * cAgentRope.target_q1_params.getD 0 0 ∧
    (cAgentRope.update_target 1).target_q1_params = cAgentRope.q1_params ∧
    (cAgentRope.update_target 0).target_q1_params =
      cAgentRope.target_q1_params :=
  ⟨(update_target_blends cAgentRope (1/2) (by norm_num) (by norm_num)
      rfl rfl).1 0 (by decide),
   (update_target_blends cAgentRope 1 (by norm_num) (by norm_num)
      rfl rfl).2.2.1,
   (update_target_blends cAgentRope 0 (by norm_num) (by norm_num)
      rfl rfl).2.2.2.2.1⟩

/-! ### C2 -/

/-- C2: `target_v` is the elementwise minimum of the two target critics at
the next action sampled from the current policy, minus `exp(log_alpha)`
times that action's log-likelihood; the temperature is `exp` of the
agent's log_alpha as it stands at call time (second conjunct: an agent
whose `log_alpha` was just replaced by `α` uses `exp α`). -/
theorem target_v_min_of_targets_minus_entropy (I : Interp) (a : SacAgent)
    (obs : Observation) (pa : Tensor) (pr : ℚ) (rng : ℕ) :
    (a.target_v I obs pa pr rng =
      List.zipWith (fun mq lp => mq - I.exp a.log_alpha * lp)
        (List.zipWith min
          (I.qForwardPlain a.target_q1_params obs pa pr
            (a.pi I obs pa pr rng).1)
          (I.qForwardPlain a.target_q2_params obs pa pr
            (a.pi I obs pa pr rng).1))
        (a.pi I obs pa pr rng).2.1) ∧
    (∀ al : ℚ,
      SacAgent.target_v I { a with log_alpha := al } obs pa pr rng =
        List.zipWith (fun mq lp => mq - I.exp al * lp)
          (List.zipWith min
            (I.qForwardPlain a.target_q1_params obs pa pr
              (a.pi I obs pa pr rng).1)
            (I.qForwardPlain a.target_q2_params obs pa pr
              (a.pi I obs pa pr rng).1))
          (a.pi I obs pa pr rng).2.1) :=
  ⟨rfl, fun _ => rfl⟩

/-! ### C6 -/

/-- C6 counterexample: a bundle missing `q1_model` is rejected, but the
agent is left changed — its policy parameters were already overwritten
when the error was raised, so the restoration is observably partial. -/
theorem load_state_dict_partial_on_missing_key :
    ((cAgentRope.load_state_dict cSdMissing).2).isSome = true ∧
    (cAgentRope.load_state_dict cSdMissing).1 ≠ cAgentRope := by
  decide

/-- C6 (amended): `load_state_dict` rejects with an error any bundle
missing one of the five parameter sets or the temperature, but the
restoration is not atomic: the parts read before the first missing key
are already applied when the error propagates (shown for a bundle whose
first missing key is `q1_model`). -/
theorem load_state_dict_rejects_missing (a : SacAgent) (sd : StateDict) :
    ((sd.model = Option.none ∨ sd.q1_model = Option.none ∨
      sd.q2_model = Option.none ∨ sd.target_q1_model = Option.none ∨
      sd.target_q2_model = Option.none ∨ sd.alpha = Option.none) →
      ((a.load_state_dict sd).2).isSome = true) ∧
    (∀ m, sd.model = some m → sd.q1_model = Option.none →
      a.load_state_dict sd =
        ({ a with model_params := m }, some "KeyError: q1_model")) := by
  obtain ⟨m, m1, m2, t1, t2, al⟩ := sd
  constructor
  · intro h
    cases m <;> cases m1 <;> cases m2 <;> cases t1 <;> cases t2 <;>
      cases al <;> simp_all [SacAgent.load_state_dict]
  · intro mm hm h1
    cases hm
    cases h1
    rfl

/-- C6 witness: the amended theorem applied to a concrete agent and a
concrete bundle missing `q1_model`. -/
theorem load_state_dict_rejects_missing_witness :
    ((cAgentRope.load_state_dict cSdMissing).2).isSome = true ∧
    cAgentRope.load_state_dict cSdMissing =
      ({ cAgentRope with model_params := [5] },
        some "KeyError: q1_model") :=
  ⟨(load_state_dict_rejects_missing cAgentRope cSdMissing).1
      (Or.inr (Or.inl rfl)),
   (load_state_dict_rejects_missing cAgentRope cSdMissing).2 [5] rfl rfl⟩

/-! ### C7 -/

/-- C7: loading the bundle just returned by `state_dict` restores exactly
the five parameter sets and the raw `log_alpha` (the loaded agent equals
the saved one whenever the non-persisted configuration — mode, std
override, squash — agrees), so `step` and `pi` reproduce the pre-save
outputs on identical inputs and seeds. -/
theorem state_dict_roundtrip (I : Interp) (a b : SacAgent)
    (hmode : b.max_q_eval_mode = a.max_q_eval_mode)
    (hstd : b.std_override = a.std_override)
    (hsq : b.action_squash = a.action_squash) :
    b.load_state_dict a.state_dict = (a, Option.none) ∧
    (∀ obs pa pr rng,
      ((b.load_state_dict a.state_dict).1).step I obs pa pr rng =
        a.step I obs pa pr rng) ∧
    (∀ obs pa pr rng,
      ((b.load_state_dict a.state_dict).1).pi I obs pa pr rng =
        a.pi I obs pa pr rng) := by
  have h1 : b.load_state_dict a.state_dict = (a, Option.none) := by
    obtain ⟨_, _, _, _, _, _, _, _, _⟩ := a
    obtain ⟨_, _, _, _, _, _, _, _, _⟩ := b
    simp_all [SacAgent.load_state_dict, SacAgent.state_dict]
  exact ⟨h1, fun obs pa pr rng => by rw [h1],
    fun obs pa pr rng => by rw [h1]⟩

/-- C7 witness: round trip through a distinct agent with the same
configuration, checked on a concrete `step` call. -/
theorem state_dict_roundtrip_witness :
    cAgentB.load_state_dict cAgentRope.state_dict =
      (cAgentRope, Option.none) ∧
    ((cAgentB.load_state_dict cAgentRope.state_dict).1).step cInterp cObs
        [] 0 0 = cAgentRope.step cInterp cObs [] 0 0 :=
  ⟨(state_dict_roundtrip cInterp cAgentRope cAgentB rfl rfl rfl).1,
   (state_dict_roundtrip cInterp cAgentRope cAgentB rfl rfl rfl).2.1
     cObs [] 0 0⟩

/-! ### C9 -/

/-- C9 counterexample: `initialize` given an `initial_model_state_dict`
whose target-critic entries differ from its live-critic entries completes
without error yet leaves `target_q1_model` different from `q1_model`. -/
theorem initialize_targets_differ_with_initial_dict :
    (SacAgent.initialize_agent [] [] [] (some cSdDiverged)
        MaxQEvalMode.none 1).1.target_q1_params ≠
      (SacAgent.initialize_agent [] [] [] (some cSdDiverged)
        MaxQEvalMode.none 1).1.q1_params ∧
    (SacAgent.initialize_agent [] [] [] (some cSdDiverged)
      MaxQEvalMode.none 1).2 = Option.none := by
  decide

/-- C9 (amended): immediately after `initialize` with no
`initial_model_state_dict`, both target critics' parameters equal their
live counterparts (hard copy at construction); when an initial state dict
is supplied it is loaded last, so the targets come from the dict and may
differ from the live critics. -/
theorem initialize_targets_hard_copied (fp fq1 fq2 : List ℚ)
    (mode : MaxQEvalMode) (sq : ℚ) :
    (SacAgent.initialize_agent fp fq1 fq2 Option.none mode
        sq).1.target_q1_params =
      (SacAgent.initialize_agent fp fq1 fq2 Option.none mode sq).1.q1_params ∧
    (SacAgent.initialize_agent fp fq1 fq2 Option.none mode
        sq).1.target_q2_params =
      (SacAgent.initialize_agent fp fq1 fq2 Option.none mode sq).1.q2_params ∧
    (SacAgent.initialize_agent fp fq1 fq2 Option.none mode sq).2 =
      Option.none :=
  ⟨rfl, rfl, rfl⟩

end SacV2

namespace SacV2

/-! ### topk lemmas -/

theorem topk_length (q : List ℚ) (k : ℕ) (hk : k ≤ q.length) :
    (topk q k).length = k := by
  unfold topk
  rw [List.length_map, List.length_take,
    (List.perm_insertionSort qGE q.enum).length_eq, List.enum_length]
  exact Nat.min_eq_left hk

theorem topk_contains_argmax (q : List ℚ) (k : ℕ) (hk : 1 ≤ k)
    (hq : q ≠ []) :
    ∃ i ∈ topk q k, i < q.length ∧
      ∀ j, j < q.length → q.getD j 0 ≤ q.getD i 0 := by
  have hperm : (q.enum.insertionSort qGE).Perm q.enum :=
    List.perm_insertionSort qGE q.enum
  have hsorted : (q.enum.insertionSort qGE).Sorted qGE :=
    List.sorted_insertionSort qGE q.enum
  obtain ⟨h, t, hs⟩ : ∃ h t, q.enum.insertionSort qGE = h :: t := by
    cases hcase : q.enum.insertionSort qGE with
    | nil =>
      exfalso
      have : q.enum = [] := (hcase ▸ hperm).symm.eq_nil
      exact hq (by simpa using List.enum_eq_nil.mp this)
    | cons h t => exact ⟨h, t, rfl⟩
  have hhead_mem : h ∈ q.enum :=
    hperm.mem_iff.mp (hs ▸ List.mem_cons_self h t)
  have hh1 : h.1 < q.length ∧ q.getD h.1 0 = h.2 := by
    have := List.mem_enum_iff_getElem?.mp hhead_mem
    have hlt : h.1 < q.length := by
      by_contra hcon
      rw [List.getElem?_eq_none (Nat.le_of_not_lt hcon)] at this
      exact Option.noConfusion this
    refine ⟨hlt, ?_⟩
    rw [List.getD_eq_getElem q 0 hlt]
    have := List.getElem?_eq_getElem hlt ▸ this
    exact Option.some_injective _ this
  have hmax : ∀ x ∈ q.enum.insertionSort qGE, x.2 ≤ h.2 := by
    intro x hx
    rw [hs] at hx
    rcases List.mem_cons.mp hx with h1 | h1
    · exact h1 ▸ le_refl _
    · exact (List.rel_of_sorted_cons (hs ▸ hsorted) x h1 : qGE h x)
  refine ⟨h.1, ?_, hh1.1, ?_⟩
  · unfold topk
    rw [hs]
    cases k with
    | zero => omega
    | succ km => simp [List.take_succ_cons]
  · intro j hj
    have hjmem : (j, q.getD j 0) ∈ q.enum := by
      apply List.mem_enum_iff_getElem?.mpr
      simp [List.getElem?_eq_getElem hj, List.getD_eq_getElem q 0 hj]
    have hmem2 : (j, q.getD j 0) ∈ q.enum.insertionSort qGE :=
      hperm.mem_iff.mpr hjmem
    have hle := hmax _ hmem2
    rw [hh1.2]
    exact hle

theorem augMeans_length (I : Interp) (params : List ℚ)
    (locs : List (List ℚ)) (obs : Observation) (pa : Tensor) (pr : ℚ) :
    (augMeans I params locs obs pa pr).length = locs.length := by
  simp [augMeans]

theorem qMin_length (I : Interp) (q1p q2p : List ℚ) (locs : List (List ℚ))
    (obs : Observation) (pa : Tensor) (pr : ℚ) (means : List (List ℚ))
    (hm : means.length = locs.length) :
    (qMin I q1p q2p locs obs pa pr means).length = locs.length := by
  simp [qMin, qVals, hm]

/-- Dispatch helper: in every non-`none` mode, `step` runs the structured
max-Q branch. -/
theorem step_eq_structured (I : Interp) (a : SacAgent) (obs : Observation)
    (pa : Tensor) (pr : ℚ) (rng : ℕ)
    (hmode : a.max_q_eval_mode ≠ MaxQEvalMode.none) :
    a.step I obs pa pr rng = a.stepStructured I obs pa pr rng := by
  unfold SacAgent.step
  cases hm : a.max_q_eval_mode
  · exact absurd hm hmode
  all_goals rfl

/-! ### C3 -/

/-- C3: in any structured mode with `n ≥ 5` candidates, the top-fraction
filter keeps exactly `⌊0.2·n⌋ = n / 5` candidates, and the kept set always
contains an index achieving the global maximum of the pessimistic Q-value
`min(q1, q2)` over all `n` candidates. -/
theorem step_topfraction_size_and_argmax (I : Interp) (a : SacAgent)
    (obs : Observation) (pa : Tensor) (pr : ℚ) (locs : List (List ℚ))
    (q : List ℚ)
    (hlocs : locs = candidateLocations a.max_q_eval_mode obs)
    (hq : q = qMin I a.q1_params a.q2_params locs obs pa pr
      (augMeans I a.model_params locs obs pa pr))
    (h5 : 5 ≤ locs.length) :
    (topk q (topkCount locs.length)).length = locs.length / 5 ∧
    ∃ i ∈ topk q (topkCount locs.length), i < q.length ∧
      ∀ j, j < q.length → q.getD j 0 ≤ q.getD i 0 := by
  have hlen : q.length = locs.length := by
    rw [hq]
    exact qMin_length _ _ _ _ _ _ _ _ (augMeans_length _ _ _ _ _ _)
  have hk1 : 1 ≤ topkCount locs.length :=
    (Nat.one_le_div_iff (by norm_num)).mpr h5
  constructor
  · exact topk_length q _ (by rw [hlen]; exact Nat.div_le_self _ _)
  · refine topk_contains_argmax q _ hk1 ?_
    intro hnil
    rw [hnil] at hlen
    simp at hlen
    omega

/-- C3 witness: the concrete rope-mode run (25 candidates, 5 kept). -/
theorem step_topfraction_size_and_argmax_witness :
    (topk cQ (topkCount cLocs.length)).length = cLocs.length / 5 ∧
    ∃ i ∈ topk cQ (topkCount cLocs.length), i < cQ.length ∧
      ∀ j, j < cQ.length → cQ.getD j 0 ≤ cQ.getD i 0 :=
  step_topfraction_size_and_argmax cInterp cAgentRope cObs [] 0 cLocs cQ
    rfl rfl (by decide)

/-! ### C5 -/

/-- C5: in any structured mode, if the candidate generator yields `n`
candidates with `⌊0.2·n⌋ = 0` (in particular `n = 0`), `step` raises — the
empty-range `torch.randint` error propagates — instead of returning an
action. -/
theorem step_structured_raises_on_empty_topfraction (I : Interp)
    (a : SacAgent) (obs : Observation) (pa : Tensor) (pr : ℚ) (rng : ℕ)
    (hmode : a.max_q_eval_mode ≠ MaxQEvalMode.none)
    (hk : topkCount (candidateLocations a.max_q_eval_mode obs).length = 0) :
    a.step I obs pa pr rng =
      Except.error "randint: from must be less than to" := by
  rw [step_eq_structured I a obs pa pr rng hmode]
  simp [SacAgent.stepStructured, hk]

/-- C5 witness: the 4-candidate `state_cloth_corner` generator has
`⌊0.2·4⌋ = 0`, and `step` errors on it. -/
theorem step_structured_raises_on_empty_topfraction_witness :
    cAgentCorner.max_q_eval_mode ≠ MaxQEvalMode.none ∧
    topkCount (candidateLocations cAgentCorner.max_q_eval_mode
      cObs).length = 0 ∧
    cAgentCorner.step cInterp cObs [] 0 0 =
      Except.error "randint: from must be less than to" :=
  ⟨by decide, by decide,
   step_structured_raises_on_empty_topfraction cInterp cAgentCorner cObs
     [] 0 0 (by decide) (by decide)⟩

end SacV2

namespace SacV2

/-! ### C8 -/

theorem mapIdx_snd (l : List ℚ) : (l.mapIdx fun _ m => m) = l := by
  rw [List.mapIdx_eq_enum_map]
  have h : Function.uncurry (fun (_ : ℕ) (m : ℚ) => m) = Prod.snd := by
    funext p
    rfl
  rw [h, List.enum_map_snd]

/-- With the std override at 0, the Gaussian sample is the squashed mean,
independent of the noise seed and of the network's log-std. -/
theorem gaussianSample_zero_override (I : Interp) (sq : ℚ)
    (mean ls : Tensor) (rng : ℕ) :
    gaussianSample I (some 0) sq mean ls rng =
      mean.map fun x => sq * I.tanh x := by
  unfold gaussianSample
  simp only [zero_mul, add_zero]
  rw [mapIdx_snd]

/-- C8: with the std override set to 0 (as `eval_mode` does) and
`max_q_eval_mode = none`, `step` is deterministic — two calls with the
same observation, prev_action and prev_reward but different noise seeds
return the same action and agent info. -/
theorem step_deterministic_with_zero_std (I : Interp) (a : SacAgent)
    (obs : Observation) (pa : Tensor) (pr : ℚ) (rng1 rng2 : ℕ)
    (hstd : a.std_override = some 0)
    (hmode : a.max_q_eval_mode = MaxQEvalMode.none) :
    a.step I obs pa pr rng1 = a.step I obs pa pr rng2 := by
  simp only [SacAgent.step, hmode]
  simp only [SacAgent.stepNone, hstd]
  rw [gaussianSample_zero_override, gaussianSample_zero_override]

/-- C8 witness: a concrete `none`-mode agent with the evaluation override,
stepped with two different seeds. -/
theorem step_deterministic_with_zero_std_witness :
    cAgentNone.step cInterp cObs [] 0 0 =
      cAgentNone.step cInterp cObs [] 0 1 :=
  step_deterministic_with_zero_std cInterp cAgentNone cObs [] 0 0 1
    rfl rfl

/-! ### The ok-case of the structured branch -/

/-- Characterization of a successful structured `step`: the action is the
affinely mapped first two location coordinates of the selected candidate
followed by `tanh` of the policy mean at that same candidate, and the
returned dist info is the policy mean/log-std at that candidate. -/
theorem stepStructured_ok_spec (I : Interp) (a : SacAgent)
    (obs : Observation) (pa : Tensor) (pr : ℚ) (rng : ℕ)
    (action : Tensor) (info : AgentInfo)
    (locs means logstds : List (List ℚ)) (q : List ℚ) (i : ℕ)
    (hlocs : locs = candidateLocations a.max_q_eval_mode obs)
    (hmeans : means = augMeans I a.model_params locs obs pa pr)
    (hls : logstds = augLogStds I a.model_params locs obs pa pr)
    (hq : q = qMin I a.q1_params a.q2_params locs obs pa pr means)
    (hi : i = selectedIndex q (topkCount locs.length) rng)
    (hok : a.stepStructured I obs pa pr rng = Except.ok (action, info)) :
    action = ((locs.getD i []).take 2).map (fun x => (x - 1/2) / (1/2)) ++
      (means.getD i []).map I.tanh ∧
    info = ⟨⟨means.getD i [], logstds.getD i []⟩⟩ := by
  subst hlocs
  subst hmeans
  subst hls
  subst hq
  subst hi
  simp only [SacAgent.stepStructured] at hok
  by_cases hk :
      topkCount (candidateLocations a.max_q_eval_mode obs).length = 0
  · rw [if_pos hk] at hok
    exact absurd hok (by simp)
  · rw [if_neg hk] at hok
    simp only [Except.ok.injEq, Prod.mk.injEq] at hok
    exact ⟨hok.1.symm, hok.2.symm⟩

end SacV2

namespace SacV2

/-- Concrete evaluation of the rope-mode structured step with seed 2: the
25 candidates are scored 0..24, the top-5 indices are 24,23,22,21,20,
seed 2 selects candidate index 22, whose location value 22 maps to
`(22 - 0.5)/0.5 = 43`. -/
theorem ropeRun : cAgentRope.step cInterp cObs [] 0 2 =
    Except.ok ([43, 43, 0], ⟨⟨[0], [0]⟩⟩) := by
  have hd : cAgentRope.step cInterp cObs [] 0 2 =
      cAgentRope.stepStructured cInterp cObs [] 0 2 := rfl
  rw [hd]
  have h1 : qMin cInterp cAgentRope.q1_params cAgentRope.q2_params
      (candidateLocations cAgentRope.max_q_eval_mode cObs) cObs [] 0
      (augMeans cInterp cAgentRope.model_params
        (candidateLocations cAgentRope.max_q_eval_mode cObs) cObs [] 0) =
      (List.range 25).map (fun i => (i : ℚ)) := by decide
  have hlen : (candidateLocations cAgentRope.max_q_eval_mode
      cObs).length = 25 := by decide
  have hsel : selectedIndex ((List.range 25).map (fun i => (i : ℚ)))
      (topkCount 25) 2 = 22 := by decide
  have hloc : ((candidateLocations cAgentRope.max_q_eval_mode
      cObs).getD 22 []).take 2 = [(22:ℚ), 22] := by decide
  have hmean2 : (augMeans cInterp cAgentRope.model_params
      (candidateLocations cAgentRope.max_q_eval_mode cObs) cObs []
      0).getD 22 [] = [(0:ℚ)] := by decide
  have hls : (augLogStds cInterp cAgentRope.model_params
      (candidateLocations cAgentRope.max_q_eval_mode cObs) cObs []
      0).getD 22 [] = [(0:ℚ)] := by decide
  simp only [SacAgent.stepStructured, h1, hlen, hsel, hmean2, hls, hloc]
  norm_num [cInterp, topkCount]

/-! ### C4 -/

/-- C4 counterexample: in `state_rope` mode the candidate locations are raw
grid indices 0..24 rather than values in `[0,1]`; selecting the candidate
at index 2 yields the affinely mapped location component
`(2 - 0.5)/0.5 = 3`, which lies outside `[-1, 1]`. -/
theorem rope_mapped_location_outside_unit_interval :
    cAgentRope.step cInterp cObs [] 0 2 =
      Except.ok ([43, 43, 0], ⟨⟨[0], [0]⟩⟩) ∧
    ¬((-1 : ℚ) ≤ 43 ∧ (43 : ℚ) ≤ 1) :=
  ⟨ropeRun, by norm_num⟩

/-- C4 (amended): in every structured mode, a returned action is the
concatenation of the chosen candidate's first two location coordinates
mapped by `x ↦ (x - 0.5)/0.5` with `tanh` of the policy mean at that same
candidate (deterministically — no resampling); the mapped result lies in
`[-1, 1]` whenever the chosen location's coordinates lie in `[0, 1]`
(true of the cloth-corner, cloth-point and pixel generators), but not in
`state_rope` mode, whose locations range over 0..24. -/
theorem step_structured_action_assembly (I : Interp) (a : SacAgent)
    (obs : Observation) (pa : Tensor) (pr : ℚ) (rng : ℕ) (action : Tensor)
    (info : AgentInfo) (locs means : List (List ℚ)) (q : List ℚ) (i : ℕ)
    (hlocs : locs = candidateLocations a.max_q_eval_mode obs)
    (hmeans : means = augMeans I a.model_params locs obs pa pr)
    (hq : q = qMin I a.q1_params a.q2_params locs obs pa pr means)
    (hi : i = selectedIndex q (topkCount locs.length) rng)
    (hmode : a.max_q_eval_mode ≠ MaxQEvalMode.none)
    (hok : a.step I obs pa pr rng = Except.ok (action, info)) :
    action = ((locs.getD i []).take 2).map (fun x => (x - 1/2) / (1/2)) ++
      (means.getD i []).map I.tanh ∧
    ((∀ x ∈ (locs.getD i []).take 2, 0 ≤ x ∧ x ≤ 1) →
      ∀ y ∈ ((locs.getD i []).take 2).map (fun x => (x - 1/2) / (1/2)),
        -1 ≤ y ∧ y ≤ 1) := by
  rw [step_eq_structured I a obs pa pr rng hmode] at hok
  obtain ⟨h1, _⟩ := stepStructured_ok_spec I a obs pa pr rng action info
    locs means (augLogStds I a.model_params locs obs pa pr) q i hlocs
    hmeans rfl hq hi hok
  refine ⟨h1, ?_⟩
  intro hx y hy
  simp only [List.mem_map] at hy
  obtain ⟨x, hxm, rfl⟩ := hy
  obtain ⟨hx0, hx1⟩ := hx x hxm
  have hy2 : (x - 1/2) / (1/2) = 2 * x - 1 := by ring
  rw [hy2]
  constructor
  · linarith
  · linarith

/-- C4 witness: the amended statement evaluated on the concrete rope-mode
run. -/
theorem step_structured_action_assembly_witness :
    ([43, 43, 0] : Tensor) =
      ((cLocs.getD cIdx []).take 2).map (fun x => (x - 1/2) / (1/2)) ++
        (cMeans.getD cIdx []).map cInterp.tanh ∧
    ((∀ x ∈ (cLocs.getD cIdx []).take 2, 0 ≤ x ∧ x ≤ 1) →
      ∀ y ∈ ((cLocs.getD cIdx []).take 2).map
        (fun x => (x - 1/2) / (1/2)), -1 ≤ y ∧ y ≤ 1) :=
  step_structured_action_assembly cInterp cAgentRope cObs [] 0 2
    [43, 43, 0] ⟨⟨[0], [0]⟩⟩ cLocs cMeans cQ cIdx rfl rfl rfl rfl
    (by decide) ropeRun

/-! ### C10 -/

/-- C10: in every structured mode, the dist info inside a returned agent
info is exactly the policy mean and log-std at the selected candidate —
the same index used to build the action — so the action's continuous
component is `tanh` of the reported mean. -/
theorem step_structured_dist_info_at_selected (I : Interp) (a : SacAgent)
    (obs : Observation) (pa : Tensor) (pr : ℚ) (rng : ℕ) (action : Tensor)
    (info : AgentInfo) (locs means logstds : List (List ℚ)) (q : List ℚ)
    (i : ℕ)
    (hlocs : locs = candidateLocations a.max_q_eval_mode obs)
    (hmeans : means = augMeans I a.model_params locs obs pa pr)
    (hls : logstds = augLogStds I a.model_params locs obs pa pr)
    (hq : q = qMin I a.q1_params a.q2_params locs obs pa pr means)
    (hi : i = selectedIndex q (topkCount locs.length) rng)
    (hmode : a.max_q_eval_mode ≠ MaxQEvalMode.none)
    (hok : a.step I obs pa pr rng = Except.ok (action, info)) :
    info.dist_info.mean = means.getD i [] ∧
    info.dist_info.log_std = logstds.getD i [] ∧
    action = ((locs.getD i []).take 2).map (fun x => (x - 1/2) / (1/2)) ++
      (info.dist_info.mean).map I.tanh := by
  rw [step_eq_structured I a obs pa pr rng hmode] at hok
  obtain ⟨h1, h2⟩ := stepStructured_ok_spec I a obs pa pr rng action info
    locs means logstds q i hlocs hmeans hls hq hi hok
  refine ⟨by rw [h2], by rw [h2], ?_⟩
  rw [h2]
  exact h1

/-- C10 witness: the dist info of the concrete rope-mode run. -/
theorem step_structured_dist_info_at_selected_witness :
    (⟨⟨[0], [0]⟩⟩ : AgentInfo).dist_info.mean = cMeans.getD cIdx [] ∧
    (⟨⟨[0], [0]⟩⟩ : AgentInfo).dist_info.log_std = cLogStds.getD cIdx [] ∧
    ([43, 43, 0] : Tensor) =
      ((cLocs.getD cIdx []).take 2).map (fun x => (x - 1/2) / (1/2)) ++
        ((⟨⟨[0], [0]⟩⟩ : AgentInfo).dist_info.mean).map cInterp.tanh :=
  step_structured_dist_info_at_selected cInterp cAgentRope cObs [] 0 2
    [43, 43, 0] ⟨⟨[0], [0]⟩⟩ cLocs cMeans cLogStds cQ cIdx rfl rfl rfl rfl
    rfl (by decide) ropeRun

end SacV2
